import Mathlib

/-!
Verification of `kedro_airflow_k8s/operators/node_pod.py` (class `NodePodOperator`).

The module is a declarative configuration generator: the constructor assembles a
container workload specification from typed parameters, two static helpers build
the resource mapping and the security context, and a property lazily renders a
partial pod definition as YAML text.

Shallow embedding conventions:
  * Python `Optional[str]` becomes `Option String`; Python string truthiness
    (`if s:` is false for `None` and `""`) is the `truthy` predicate.
  * Python dicts built by a short sequence of conditional single-key inserts
    (all keys distinct) are represented as association lists in insertion order.
  * Evaluating an undefined Python name raises `NameError`; fallible evaluation
    is modelled with `Except PyError`.
  * The YAML text rendered by the `minimal_pod_template` property is represented
    by its list of lines: the source concatenates f-string chunks, each chunk
    being exactly the lines shown here joined and terminated by newline
    characters, so the rendered string is the line list joined with `"\n"`.
    The fresh `uuid.uuid4().hex` token is passed in as the parameter `u`.
-/

namespace KedroAirflowK8s

/-- A Python runtime error that this module can raise. `nameError s` models
`NameError: name 's' is not defined`. -/
inductive PyError where
  | nameError (missing : String)
deriving DecidableEq, Repr

/-- Python truthiness of an `Optional[str]` value: `None` and the empty string
are falsy, every other string is truthy. -/
def truthy : Option String → Bool
  | none => false
  | some s => !s.isEmpty

/-- Python f-string interpolation of an `Optional[str]`: `None` renders as the
literal text `None`, a string renders as itself. -/
def pyStr : Option String → String
  | none => "None"
  | some s => s

/-- Embeds `NodePodOperator.create_resources` (node_pod.py lines 109-131).
The source starts from an empty dict and conditionally inserts the four values;
note that the source stores `limits_cpu` under the key `"limit_memory"` and
`limits_memory` under the key `"limit_cpu"` (lines 127-130), and that the local
`limits` dict created at line 126 is never used. -/
def create_resources (requests_cpu requests_memory limits_cpu limits_memory : Option String) :
    List (String × String) :=
  let resources : List (String × String) := []
  let resources := if truthy requests_cpu then
    resources ++ [("request_cpu", requests_cpu.getD "")] else resources
  let resources := if truthy requests_memory then
    resources ++ [("request_memory", requests_memory.getD "")] else resources
  let resources := if truthy limits_cpu then
    resources ++ [("limit_memory", limits_cpu.getD "")] else resources
  let resources := if truthy limits_memory then
    resources ++ [("limit_cpu", limits_memory.getD "")] else resources
  resources

/-- Embeds `NodePodOperator.create_security_context` (node_pod.py lines 165-179).
The source evaluates the dict display `{fs_group: volume_owner}` when the volume
is not disabled; `fs_group` is a bare name that is bound nowhere in the module
(it is not a parameter, not a module global, not an import and not a builtin),
so evaluating that branch raises `NameError: name 'fs_group' is not defined`.
When the volume is disabled the dict display is not evaluated and the empty
dict is returned. -/
def create_security_context (volume_disabled : Bool) (volume_owner : Int) :
    Except PyError (List (String × Int)) :=
  if !volume_disabled then Except.error (PyError.nameError "fs_group")
  else Except.ok []

/-- The generated workload name `f"{self._task_id}.{uuid.uuid4().hex}"` of
node_pod.py line 145, with the fresh hex token passed in as `u`. -/
def generated_name (task_id u : String) : String :=
  task_id ++ "." ++ u

/-- Embeds the `minimal_pod_template` property (node_pod.py lines 133-163) as
the list of lines of the rendered YAML text.  The first nine lines are the
f-string chunk of lines 141-150 (which begins and ends with a newline, hence
the leading empty line); if `mlflow_enabled` the chunk of lines 152-155 is
appended (its leading newline produces the separating empty line); if the
volume is not disabled the f-string chunk of lines 157-162 is appended; the
final empty line comes from the trailing newline of the last chunk. -/
def minimal_pod_template (task_id : String) (mlflow_enabled volume_disabled : Bool)
    (pvc_name : Option String) (u : String) : List String :=
  (["",
    "apiVersion: v1",
    "kind: Pod",
    "metadata:",
    "  name: " ++ generated_name task_id u,
    "spec:",
    "  containers:",
    "    - name: base",
    "      env:"]
  ++ (if mlflow_enabled then
       ["",
        "        - name: MLFLOW_RUN_ID",
        "          value: \x7b\x7b task_instance.xcom_pull(key=\"mlflow_run_id\") \x7d\x7d"]
      else [])
  ++ (if !volume_disabled then
       ["",
        "  volumes:",
        "    - name: storage",
        "      persistentVolumeClaim:",
        "        claimName: " ++ pyStr pvc_name]
      else [])
  ++ [""])

/-- The fields of `kubernetes.client.models.V1VolumeMount` used by the source. -/
structure V1VolumeMount where
  mount_path : String
  name : String
deriving DecidableEq, Repr

/-- The constructor parameters of `NodePodOperator.__init__` (node_pod.py lines
22-45), with the source's default values. -/
structure NodePodArgs where
  node_name : String
  namespace_ : String
  image : String
  image_pull_policy : String
  env : String
  task_id : String
  pipeline : String := "__default__"
  pvc_name : Option String := none
  startup_timeout : Int := 600
  volume_disabled : Bool := false
  volume_owner : Int := 0
  mlflow_enabled : Bool := true
  requests_cpu : Option String := none
  requests_memory : Option String := none
  limits_cpu : Option String := none
  limits_memory : Option String := none
  node_selector_labels : Option (List (String × String)) := none
  labels : Option (List (String × String)) := none
  tolerations : Option (List (List (String × String))) := none
  annotations : Option (List (String × String)) := none
  source : String := "/home/kedro/data"
deriving DecidableEq, Repr

/-- The state a fully constructed `NodePodOperator` holds: the four private
attributes set at node_pod.py lines 68-71 and the keyword arguments passed to
the base-class constructor at lines 73-107.  `config_file` holds the rendered
supplemental document (as its line list), because line 102 accesses the
`minimal_pod_template` property once during construction. -/
structure NodePodOperator where
  task_id : String
  volume_disabled : Bool
  pvc_name : Option String
  mlflow_enabled : Bool
  name : String
  security_context : List (String × Int)
  namespace_ : String
  image : String
  image_pull_policy : String
  arguments : List String
  volume_mounts : List V1VolumeMount
  resources : List (String × String)
  startup_timeout_seconds : Int
  is_delete_operator_pod : Bool
  config_file : List String
  node_selectors : Option (List (String × String))
  labels : Option (List (String × String))
  tolerations : Option (List (List (String × String)))
  annotations : Option (List (String × String))
deriving DecidableEq, Repr

/-- Embeds `NodePodOperator.__init__` (node_pod.py lines 22-107).  `u` is the
hex token drawn by the single `minimal_pod_template` access at line 102.
Evaluating `create_security_context` at line 76 raises `NameError` whenever the
volume is not disabled (see `create_security_context`), in which case the
constructor propagates the error and no operator is built. -/
def NodePodOperator.init (a : NodePodArgs) (u : String) : Except PyError NodePodOperator :=
  match create_security_context a.volume_disabled a.volume_owner with
  | Except.error e => Except.error e
  | Except.ok sc => Except.ok
    { task_id := a.task_id
      volume_disabled := a.volume_disabled
      pvc_name := a.pvc_name
      mlflow_enabled := a.mlflow_enabled
      name := a.task_id
      security_context := sc
      namespace_ := a.namespace_
      image := a.image
      image_pull_policy := a.image_pull_policy
      arguments := ["kedro", "run", "-e", a.env, "--pipeline", a.pipeline,
                    "--node", a.node_name]
      volume_mounts := if !a.volume_disabled then
          [{ mount_path := a.source, name := "storage" }] else []
      resources := create_resources a.requests_cpu a.requests_memory
          a.limits_cpu a.limits_memory
      startup_timeout_seconds := a.startup_timeout
      is_delete_operator_pod := true
      config_file := minimal_pod_template a.task_id a.mlflow_enabled
          a.volume_disabled a.pvc_name u
      node_selectors := a.node_selector_labels
      labels := a.labels
      tolerations := a.tolerations
      annotations := a.annotations }

/-- Concrete required arguments used for evaluations; all optional parameters
keep their source defaults (in particular `volume_disabled = false`). -/
def a1 : NodePodArgs :=
  { node_name := "node", namespace_ := "ns", image := "img",
    image_pull_policy := "Always", env := "base", task_id := "task" }

/-- `a1` with the volume disabled, so that construction succeeds. -/
def a0 : NodePodArgs := { a1 with volume_disabled := true }

/-- The operator value that `NodePodOperator.init a0 "0123abcd"` builds. -/
def b0 : NodePodOperator :=
  { task_id := "task", volume_disabled := true, pvc_name := none,
    mlflow_enabled := true, name := "task", security_context := [],
    namespace_ := "ns", image := "img", image_pull_policy := "Always",
    arguments := ["kedro", "run", "-e", "base", "--pipeline", "__default__",
                  "--node", "node"],
    volume_mounts := [], resources := [], startup_timeout_seconds := 600,
    is_delete_operator_pod := true,
    config_file := minimal_pod_template "task" true true none "0123abcd",
    node_selectors := none, labels := none, tolerations := none,
    annotations := none }

example : create_resources none none (some "500m") none = [("limit_memory", "500m")] := by rfl

example : minimal_pod_template "t" false true none "ab" =
    ["", "apiVersion: v1", "kind: Pod", "metadata:", "  name: t.ab", "spec:",
     "  containers:", "    - name: base", "      env:", ""] := by rfl

/-- The line `  name: {task_id}.{hex}` of the rendered document never equals
the line `  volumes:` — the two texts differ at their third character. -/
lemma name_line_ne_volumes (t u : String) :
    "  name: " ++ generated_name t u ≠ "  volumes:" := by
  intro h
  have h2 := congrArg (fun s => s.data.take 3) h
  simp only [String.data_append] at h2
  rw [List.take_append_of_le_length (by decide)] at h2
  exact absurd h2 (by decide)

/-- The line `  name: {task_id}.{hex}` of the rendered document never equals
the mlflow env-entry name line — the two texts differ at their third
character. -/
lemma name_line_ne_mlflow (t u : String) :
    "  name: " ++ generated_name t u ≠ "        - name: MLFLOW_RUN_ID" := by
  intro h
  have h2 := congrArg (fun s => s.data.take 3) h
  simp only [String.data_append] at h2
  rw [List.take_append_of_le_length (by decide)] at h2
  exact absurd h2 (by decide)

/-- The line `        claimName: {pvc}` of the rendered document never equals
the mlflow env-entry name line — the two texts differ at their ninth
character. -/
lemma claim_line_ne_mlflow (s : String) :
    "        claimName: " ++ s ≠ "        - name: MLFLOW_RUN_ID" := by
  intro h
  have h2 := congrArg (fun x => x.data.take 9) h
  simp only [String.data_append] at h2
  rw [List.take_append_of_le_length (by decide)] at h2
  exact absurd h2 (by decide)

/-- The generated workload name determines the hex token: names built from the
same task id and distinct tokens are distinct. -/
lemma generated_name_inj (t u1 u2 : String)
    (h : generated_name t u1 = generated_name t u2) : u1 = u2 := by
  have h2 := congrArg String.data h
  simp only [generated_name, String.data_append] at h2
  have h3 := List.append_cancel_left h2
  exact String.ext h3

/-- Claim C1 (code bug): the claim says every present resource input lands
under its canonical key, limits cpu under the cpu-limit key and limits memory
under the memory-limit key.  The code contradicts this and its own docstring:
`create_resources` stores `limits_cpu` under the key `"limit_memory"` and
`limits_memory` under the key `"limit_cpu"` (node_pod.py lines 127-130), so a
lone cpu limit of `"500m"` yields the mapping with only the memory-limit key,
while the cpu-limit key is absent.  The two request inputs do land under their
canonical keys, and absent inputs contribute no key. -/
theorem create_resources_swaps_limit_keys :
    create_resources none none (some "500m") none = [("limit_memory", "500m")]
    ∧ (create_resources none none (some "500m") none).lookup "limit_cpu" = none
    ∧ create_resources none none none (some "2Gi") = [("limit_cpu", "2Gi")]
    ∧ create_resources (some "1") (some "4Gi") none none
      = [("request_cpu", "1"), ("request_memory", "4Gi")]
    ∧ create_resources none none none none = [] :=
  ⟨rfl, rfl, rfl, rfl, rfl⟩

/-- Claim C2 (code bug): the claim says that with the volume enabled the built
spec has exactly one volume mount and `create_security_context` returns the
single-entry mapping from the filesystem-group key to the owner id.  The code
instead raises `NameError` in the volume-enabled branch, because the dict key
`fs_group` at node_pod.py line 176 is an undefined name; consequently the
constructor also fails for every volume-enabled input and no such spec is ever
built. -/
theorem create_security_context_raises_name_error :
    create_security_context false 7 = Except.error (PyError.nameError "fs_group")
    ∧ NodePodOperator.init { a1 with volume_owner := 7 } "0123abcd"
      = Except.error (PyError.nameError "fs_group") :=
  ⟨rfl, rfl⟩

/-- Claim C3 (code bug): the claim says constructing the builder and evaluating
its helpers performs no validation and raises no error for any input
combination.  No validation is indeed performed, but a constructor call with
all optional parameters at their defaults (`volume_disabled = false`) raises
`NameError` at node_pod.py line 76, because `create_security_context`
evaluates the undefined name `fs_group`. -/
theorem constructor_raises_name_error :
    NodePodOperator.init a1 "0123abcd" = Except.error (PyError.nameError "fs_group")
    ∧ a1.volume_disabled = false :=
  ⟨rfl, rfl⟩

/-- Claim C4 (confirmed): for every input with the volume disabled — whatever
the claim name — the built spec has an empty volume-mount list, the security
context is the empty mapping, and the rendered supplemental document contains
no `  volumes:` line. -/
theorem volume_disabled_omits_volume_everywhere (a : NodePodArgs) (u : String)
    (h : a.volume_disabled = true) :
    (NodePodOperator.init a u).map NodePodOperator.volume_mounts = Except.ok []
    ∧ (NodePodOperator.init a u).map NodePodOperator.security_context = Except.ok []
    ∧ "  volumes:" ∉ minimal_pod_template a.task_id a.mlflow_enabled
        a.volume_disabled a.pvc_name u := by
  refine ⟨?_, ?_, ?_⟩
  · simp [NodePodOperator.init, create_security_context, h, Except.map]
  · simp [NodePodOperator.init, create_security_context, h, Except.map]
  · rw [h]
    cases hm : a.mlflow_enabled <;>
      simp [minimal_pod_template, hm, (name_line_ne_volumes a.task_id u).symm]

/-- Witness for C4 at the concrete volume-disabled input `a0`. -/
theorem volume_disabled_omits_volume_everywhere_witness :
    (NodePodOperator.init a0 "0123abcd").map NodePodOperator.volume_mounts = Except.ok []
    ∧ (NodePodOperator.init a0 "0123abcd").map NodePodOperator.security_context = Except.ok []
    ∧ "  volumes:" ∉ minimal_pod_template a0.task_id a0.mlflow_enabled
        a0.volume_disabled a0.pvc_name "0123abcd" :=
  volume_disabled_omits_volume_everywhere a0 "0123abcd" rfl

/-- Claim C5 (confirmed): whenever construction succeeds, the arguments list of
the built spec is exactly the eight-element list `kedro run -e {env}
--pipeline {pipeline} --node {node_name}`, in that order, independent of the
optional parameters. -/
theorem arguments_fixed_kedro_run_command (a : NodePodArgs) (u : String)
    (b : NodePodOperator) (h : NodePodOperator.init a u = Except.ok b) :
    b.arguments = ["kedro", "run", "-e", a.env, "--pipeline", a.pipeline,
                   "--node", a.node_name] := by
  unfold NodePodOperator.init at h
  split at h
  · exact Except.noConfusion h
  · cases h
    rfl

/-- Witness for C5 at the concrete input `a0`, whose construction succeeds and
builds `b0`. -/
theorem arguments_fixed_kedro_run_command_witness :
    NodePodOperator.init a0 "0123abcd" = Except.ok b0
    ∧ b0.arguments = ["kedro", "run", "-e", "base", "--pipeline", "__default__",
                      "--node", "node"] :=
  ⟨rfl, arguments_fixed_kedro_run_command a0 "0123abcd" b0 rfl⟩

/-- Claim C6 (confirmed): with run tracking enabled the rendered document
contains exactly one env-entry name line `- name: MLFLOW_RUN_ID`, immediately
followed by the deferred xcom-pull value line for key `mlflow_run_id`; with
run tracking disabled no such entry appears anywhere in the document. -/
theorem mlflow_env_entry_iff_enabled (t : String) (vd : Bool) (p : Option String)
    (u : String) :
    ((minimal_pod_template t true vd p u).count "        - name: MLFLOW_RUN_ID" = 1
     ∧ ∃ pre suf, minimal_pod_template t true vd p u
         = pre ++ ["        - name: MLFLOW_RUN_ID",
                   "          value: \x7b\x7b task_instance.xcom_pull(key=\"mlflow_run_id\") \x7d\x7d"]
               ++ suf)
    ∧ (minimal_pod_template t false vd p u).count "        - name: MLFLOW_RUN_ID" = 0 := by
  refine ⟨⟨?_, ?_⟩, ?_⟩
  · cases vd <;>
      simp [minimal_pod_template, List.count_cons, List.count_append,
        name_line_ne_mlflow t u, claim_line_ne_mlflow (pyStr p)]
  · cases vd
    · exact ⟨["", "apiVersion: v1", "kind: Pod", "metadata:",
              "  name: " ++ generated_name t u, "spec:", "  containers:",
              "    - name: base", "      env:", ""],
             ["", "  volumes:", "    - name: storage",
              "      persistentVolumeClaim:",
              "        claimName: " ++ pyStr p, ""], rfl⟩
    · exact ⟨["", "apiVersion: v1", "kind: Pod", "metadata:",
              "  name: " ++ generated_name t u, "spec:", "  containers:",
              "    - name: base", "      env:", ""],
             [""], rfl⟩
  · cases vd <;>
      simp [minimal_pod_template, List.count_cons, List.count_append,
        name_line_ne_mlflow t u, claim_line_ne_mlflow (pyStr p)]

/-- Claim C7 (confirmed): two renders of the supplemental document with
distinct fresh hex tokens generate distinct workload names, and in each render
the metadata name line carries exactly the task id, the separator `.` and the
token. -/
theorem rendered_names_differ_across_renders (t : String) (m v : Bool)
    (p : Option String) (u1 u2 : String) (h : u1 ≠ u2) :
    generated_name t u1 ≠ generated_name t u2
    ∧ (minimal_pod_template t m v p u1)[4]? = some ("  name: " ++ generated_name t u1)
    ∧ (minimal_pod_template t m v p u2)[4]? = some ("  name: " ++ generated_name t u2) :=
  ⟨fun hn => h (generated_name_inj t u1 u2 hn), rfl, rfl⟩

/-- Witness for C7 at two concrete distinct tokens. -/
theorem rendered_names_differ_across_renders_witness :
    generated_name "task" "0123abcd" ≠ generated_name "task" "4567ef01"
    ∧ (minimal_pod_template "task" true false none "0123abcd")[4]?
        = some ("  name: " ++ generated_name "task" "0123abcd")
    ∧ (minimal_pod_template "task" true false none "4567ef01")[4]?
        = some ("  name: " ++ generated_name "task" "4567ef01") :=
  rendered_names_differ_across_renders "task" true false none "0123abcd" "4567ef01"
    (by decide)

/-- Claim C8 (confirmed): with the volume enabled the rendered document ends
with a volumes block binding mount name `storage` to a persistent-volume-claim
reference whose `claimName` renders the configured claim name; an absent claim
name renders as the text `None` (the Python rendering of the null value, the
latent defect the spec notes). -/
theorem volume_block_binds_claim_name (t : String) (m : Bool) (p : Option String)
    (u : String) :
    (∃ pre, minimal_pod_template t m false p u
        = pre ++ ["", "  volumes:", "    - name: storage",
                  "      persistentVolumeClaim:",
                  "        claimName: " ++ pyStr p, ""])
    ∧ pyStr none = "None" := by
  refine ⟨?_, rfl⟩
  cases m
  · exact ⟨["", "apiVersion: v1", "kind: Pod", "metadata:",
            "  name: " ++ generated_name t u, "spec:", "  containers:",
            "    - name: base", "      env:"], rfl⟩
  · exact ⟨["", "apiVersion: v1", "kind: Pod", "metadata:",
            "  name: " ++ generated_name t u, "spec:", "  containers:",
            "    - name: base", "      env:", "",
            "        - name: MLFLOW_RUN_ID",
            "          value: \x7b\x7b task_instance.xcom_pull(key=\"mlflow_run_id\") \x7d\x7d"],
           rfl⟩

/-- Claim C9 (confirmed): two renders of the supplemental document differ at
most in the generated-name line (line index 4); every other line is fully
determined by the constructor-time flags and fields. -/
theorem renders_differ_only_in_generated_name (t : String) (m v : Bool)
    (p : Option String) (u1 u2 : String) :
    minimal_pod_template t m v p u1
      = (minimal_pod_template t m v p u2).set 4 ("  name: " ++ generated_name t u1) := by
  cases m <;> cases v <;> rfl

/-- Claim C10 (confirmed): omitting the pipeline parameter at construction
defaults it to `__default__`, and a successful construction passes that
default as the value following the `--pipeline` flag. -/
theorem pipeline_defaults_to_default_pipeline (n ns im ipp e t u : String) :
    ({ node_name := n, namespace_ := ns, image := im, image_pull_policy := ipp,
       env := e, task_id := t } : NodePodArgs).pipeline = "__default__"
    ∧ (NodePodOperator.init
        { node_name := n, namespace_ := ns, image := im, image_pull_policy := ipp,
          env := e, task_id := t, volume_disabled := true } u).map
        NodePodOperator.arguments
      = Except.ok ["kedro", "run", "-e", e, "--pipeline", "__default__",
                   "--node", n] :=
  ⟨rfl, rfl⟩

end KedroAirflowK8s
